import Mathlib

/-!
Shallow embedding of the typed gateway HTTP client layer of
`natalysoliton/performance-tests` (`src/clients/http/...`), together with
theorems checking the repository's natural-language specification against it.

Modelling conventions:
* A JSON value (`Json`) stands for the result of Python's `json` decoding;
  a response body is `Option Json` (`none` = the body is not valid JSON).
* The network is a `Transport` oracle: `respond n req` is the server's
  response to the `n`-th request issued by the process.  Each client method
  threads the call counter, so issuing a request is observable and two
  successive calls consult the oracle at distinct indices — this is what
  makes the no-caching and no-mutation claims meaningful.
* Python instance methods are embedded in state-passing style: a method takes
  the receiver (`HTTPClient`) and returns the receiver it leaves behind in an
  `ApiResult`.  The source methods never assign to `self` outside `__init__`,
  so every embedded body returns the receiver it was given.
* Python `float` configuration values (timeouts, amounts) are carried as `ℚ`;
  the layer stores and forwards them without arithmetic, so the exact carrier
  is irrelevant to every claim below.
-/

/-- A decoded JSON value, as produced by Python's `json` module for a
response body or consumed by `json.dumps` for a request body. -/
inductive Json where
  | null : Json
  | bool : Bool → Json
  | num : ℚ → Json
  | str : String → Json
  | arr : List Json → Json
  | obj : List (String × Json) → Json

/-- Top-level keys of a JSON object (the serialized dict's key list). -/
def Json.objKeys : Json → List String
  | Json.obj members => members.map Prod.fst
  | _ => []

/-- HTTP method of an endpoint. -/
inductive HttpMethod where
  | GET : HttpMethod
  | POST : HttpMethod
deriving DecidableEq

/-- A primitive query-parameter value as supplied in the caller's params
dict (`httpx` receives `str` or `int` values from this code base). -/
inductive QueryValue where
  | str : String → QueryValue
  | int : Int → QueryValue
deriving DecidableEq

/-- The textual form `httpx` gives a primitive query value on the wire. -/
def QueryValue.toStr : QueryValue → String
  | QueryValue.str s => s
  | QueryValue.int i => toString i

/-- One `k=v` pair of the encoded query string. -/
def encodePair (p : String × QueryValue) : String :=
  p.1 ++ "=" ++ p.2.toStr

/-- The query string `httpx` sends for a params dict: exactly the supplied
entries, joined with ampersands. -/
def queryString (params : List (String × QueryValue)) : String :=
  String.intercalate "&" (params.map encodePair)

/-- The outgoing HTTP request a client method hands to `httpx`: method,
client configuration (base URL, timeout), endpoint path, query params,
JSON body (`json=` argument) and explicit headers. -/
structure Request where
  method : HttpMethod
  base_url : String
  timeout : ℚ
  url : String
  params : List (String × QueryValue)
  body : Option Json
  headers : List (String × String)

/-- The raw HTTP response: status code and body.  The body is carried as its
JSON parse (`none` when the bytes are not valid JSON), which is all the
client layer ever looks at. -/
structure Response where
  status : Nat
  body : Option Json

/-- The `httpx.Response.is_success` test: status in the 2xx range. -/
def Response.is_success (r : Response) : Bool :=
  decide (200 ≤ r.status ∧ r.status ≤ 299)

/-- The error taxonomy of the client layer: `statusError` is
`httpx.HTTPStatusError` (carries the status code and raw body),
`decodeError` is a JSON decode failure of a response body. -/
inductive ClientError where
  | statusError : Nat → Option Json → ClientError
  | decodeError : ClientError

/-- The `httpx.Response.raise_for_status` call: succeeds on 2xx, otherwise
raises an `HTTPStatusError` carrying the response's status and body. -/
def Response.raise_for_status (r : Response) : Except ClientError Unit :=
  if r.is_success = true then Except.ok ()
  else Except.error (ClientError.statusError r.status r.body)

/-- The `httpx.Response.json()` call: the parsed body, or a decode error
when the body is not valid JSON. -/
def Response.json (r : Response) : Except ClientError Json :=
  match r.body with
  | some j => Except.ok j
  | none => Except.error ClientError.decodeError

/-- The network oracle: `respond n req` is the server's response to the
`n`-th request issued by the process. -/
structure Transport where
  respond : Nat → Request → Response

/-- The base HTTP client handle (src/clients/http/client.py): exactly the
fields `__init__` stores on `self`. -/
structure HTTPClient where
  base_url : String
  timeout : ℚ
deriving DecidableEq

/-- Result of one embedded method call: the returned value, the receiver
left behind, and the updated count of requests issued so far. -/
structure ApiResult (α : Type) where
  value : α
  client : HTTPClient
  calls : Nat

/-- Python's `str.rstrip(c)` for a single strip character: drop every
trailing occurrence of `c`. -/
def pyRstrip (s : String) (c : Char) : String :=
  ⟨(s.data.reverse.dropWhile (fun ch => ch = c)).reverse⟩

/-- The `HTTPClient.__init__` constructor (src/clients/http/client.py):
stores `base_url.rstrip('/')` and the timeout, defaulting to 10.0 seconds
when the caller supplies none. -/
def HTTPClient.init (base_url : String) (timeout : Option ℚ) : HTTPClient :=
  { base_url := pyRstrip base_url '/', timeout := timeout.getD 10 }

/-- The `DocumentsGatewayHTTPClient.__init__` constructor: its own default
timeout is also 10.0, and it delegates to `HTTPClient.__init__` via
`super().__init__(base_url, timeout)`. -/
def DocumentsGatewayHTTPClient.init (base_url : String) (timeout : Option ℚ) : HTTPClient :=
  HTTPClient.init base_url (some (timeout.getD 10))

/-- The `CardsGatewayHTTPClient.__init__` constructor: default timeout 10.0,
delegating to `HTTPClient.__init__`. -/
def CardsGatewayHTTPClient.init (base_url : String) (timeout : Option ℚ) : HTTPClient :=
  HTTPClient.init base_url (some (timeout.getD 10))

/-- The `OperationsGatewayHTTPClient.__init__` constructor: default timeout
10.0, delegating to `HTTPClient.__init__`. -/
def OperationsGatewayHTTPClient.init (base_url : String) (timeout : Option ℚ) : HTTPClient :=
  HTTPClient.init base_url (some (timeout.getD 10))

/-! ### Serialization of caller-supplied dicts

Request contracts and query records are Python `TypedDict`s whose optional
entries the callers may leave out of the dict (the source's own usage does);
they are embedded as structures with `Option` fields.  `json.dumps` and the
`httpx` params encoding emit exactly the keys present in the dict, so a
field's entry appears in the serialized form iff the field is populated. -/

/-- The JSON-object entry a populated optional dict field contributes
(`json.dumps` of a dict: a key appears iff it is present). -/
def optField (k : String) (v : Option Json) : List (String × Json) :=
  match v with
  | some j => [(k, j)]
  | none => []

/-- The params-dict entry a populated optional query field contributes. -/
def optQuery (k : String) (v : Option QueryValue) : List (String × QueryValue) :=
  match v with
  | some q => [(k, q)]
  | none => []

/-! ### Documents client (src/clients/http/gateway/documents/client.py) -/

/-- The request `get_tariff_document_api` hands to `httpx`: GET
`/api/v1/documents/tariff-document` with `params = ("accountId": account_id)`
and an `Accept: application/json` header. -/
def get_tariff_document_request (c : HTTPClient) (account_id : String) : Request :=
  { method := HttpMethod.GET, base_url := c.base_url, timeout := c.timeout,
    url := "/api/v1/documents/tariff-document",
    params := [("accountId", QueryValue.str account_id)], body := none,
    headers := [("Accept", "application/json")] }

/-- `DocumentsGatewayHTTPClient.get_tariff_document_api`: issue the GET and
return the raw response. -/
def get_tariff_document_api (c : HTTPClient) (t : Transport) (n : Nat)
    (account_id : String) : ApiResult Response :=
  { value := t.respond n (get_tariff_document_request c account_id),
    client := c, calls := n + 1 }

/-- The request `get_contract_document_api` hands to `httpx`: GET
`/api/v1/documents/contract-document` with the `accountId` param. -/
def get_contract_document_request (c : HTTPClient) (account_id : String) : Request :=
  { method := HttpMethod.GET, base_url := c.base_url, timeout := c.timeout,
    url := "/api/v1/documents/contract-document",
    params := [("accountId", QueryValue.str account_id)], body := none,
    headers := [("Accept", "application/json")] }

/-- `DocumentsGatewayHTTPClient.get_contract_document_api`: issue the GET and
return the raw response. -/
def get_contract_document_api (c : HTTPClient) (t : Transport) (n : Nat)
    (account_id : String) : ApiResult Response :=
  { value := t.respond n (get_contract_document_request c account_id),
    client := c, calls := n + 1 }

/-- `DocumentsGatewayHTTPClient.get_tariff_document`: call the low-level
method, `raise_for_status()`, then return `response.json()`. -/
def get_tariff_document (c : HTTPClient) (t : Transport) (n : Nat)
    (account_id : String) : ApiResult (Except ClientError Json) :=
  let r := get_tariff_document_api c t n account_id
  match r.value.raise_for_status with
  | Except.error e => { value := Except.error e, client := r.client, calls := r.calls }
  | Except.ok _ => { value := r.value.json, client := r.client, calls := r.calls }

/-- `DocumentsGatewayHTTPClient.get_contract_document`: call the low-level
method, `raise_for_status()`, then return `response.json()`. -/
def get_contract_document (c : HTTPClient) (t : Transport) (n : Nat)
    (account_id : String) : ApiResult (Except ClientError Json) :=
  let r := get_contract_document_api c t n account_id
  match r.value.raise_for_status with
  | Except.error e => { value := Except.error e, client := r.client, calls := r.calls }
  | Except.ok _ => { value := r.value.json, client := r.client, calls := r.calls }

/-! ### Cards client (src/clients/http/gateway/cards/client.py) -/

/-- The `VirtualCardRequest` TypedDict: required `user_id`, `account_id`,
`currency`; optional `card_type` and `metadata`. -/
structure VirtualCardRequest where
  user_id : String
  account_id : String
  currency : String
  card_type : Option String
  metadata : Option (List (String × Json))

/-- `json.dumps` of a `VirtualCardRequest` dict: required keys always
present, optional keys present iff populated. -/
def VirtualCardRequest.toJson (r : VirtualCardRequest) : Json :=
  Json.obj ([("user_id", Json.str r.user_id), ("account_id", Json.str r.account_id),
      ("currency", Json.str r.currency)]
    ++ optField "card_type" (r.card_type.map Json.str)
    ++ optField "metadata" (r.metadata.map Json.obj))

/-- The `PhysicalCardRequest` TypedDict: required `user_id`, `account_id`,
`currency`, `delivery_address`, `card_holder_name`; optional `card_type`
and `metadata`. -/
structure PhysicalCardRequest where
  user_id : String
  account_id : String
  currency : String
  delivery_address : String
  card_holder_name : String
  card_type : Option String
  metadata : Option (List (String × Json))

/-- `json.dumps` of a `PhysicalCardRequest` dict. -/
def PhysicalCardRequest.toJson (r : PhysicalCardRequest) : Json :=
  Json.obj ([("user_id", Json.str r.user_id), ("account_id", Json.str r.account_id),
      ("currency", Json.str r.currency),
      ("delivery_address", Json.str r.delivery_address),
      ("card_holder_name", Json.str r.card_holder_name)]
    ++ optField "card_type" (r.card_type.map Json.str)
    ++ optField "metadata" (r.metadata.map Json.obj))

/-- Headers every write endpoint of this code base sets explicitly. -/
def postHeaders : List (String × String) :=
  [("Content-Type", "application/json"), ("Accept", "application/json")]

/-- The request `issue_virtual_card_api` hands to `httpx`: POST
`/api/v1/cards/issue-virtual-card` with the contract as JSON body. -/
def issue_virtual_card_request (c : HTTPClient) (r : VirtualCardRequest) : Request :=
  { method := HttpMethod.POST, base_url := c.base_url, timeout := c.timeout,
    url := "/api/v1/cards/issue-virtual-card",
    params := [], body := some r.toJson, headers := postHeaders }

/-- `CardsGatewayHTTPClient.issue_virtual_card_api`: issue the POST and
return the raw response. -/
def issue_virtual_card_api (c : HTTPClient) (t : Transport) (n : Nat)
    (r : VirtualCardRequest) : ApiResult Response :=
  { value := t.respond n (issue_virtual_card_request c r), client := c, calls := n + 1 }

/-- The request `issue_physical_card_api` hands to `httpx`: POST
`/api/v1/cards/issue-physical-card` with the contract as JSON body. -/
def issue_physical_card_request (c : HTTPClient) (r : PhysicalCardRequest) : Request :=
  { method := HttpMethod.POST, base_url := c.base_url, timeout := c.timeout,
    url := "/api/v1/cards/issue-physical-card",
    params := [], body := some r.toJson, headers := postHeaders }

/-- `CardsGatewayHTTPClient.issue_physical_card_api`: issue the POST and
return the raw response. -/
def issue_physical_card_api (c : HTTPClient) (t : Transport) (n : Nat)
    (r : PhysicalCardRequest) : ApiResult Response :=
  { value := t.respond n (issue_physical_card_request c r), client := c, calls := n + 1 }

/-! ### Operations client (src/clients/http/gateway/operations/client.py) -/

/-- The `GetOperationsQuery` TypedDict: required `accountId`; optional
`limit`, `offset`, `startDate`, `endDate`, `operationType`. -/
structure GetOperationsQuery where
  accountId : String
  limit : Option Int
  offset : Option Int
  startDate : Option String
  endDate : Option String
  operationType : Option String

/-- The params dict a `GetOperationsQuery` becomes: exactly the keys the
caller populated. -/
def GetOperationsQuery.toParams (q : GetOperationsQuery) : List (String × QueryValue) :=
  ("accountId", QueryValue.str q.accountId) ::
    (optQuery "limit" (q.limit.map QueryValue.int)
      ++ optQuery "offset" (q.offset.map QueryValue.int)
      ++ optQuery "startDate" (q.startDate.map QueryValue.str)
      ++ optQuery "endDate" (q.endDate.map QueryValue.str)
      ++ optQuery "operationType" (q.operationType.map QueryValue.str))

/-- The `GetOperationsSummaryQuery` TypedDict: required `accountId`;
optional `startDate`, `endDate`, `groupBy`. -/
structure GetOperationsSummaryQuery where
  accountId : String
  startDate : Option String
  endDate : Option String
  groupBy : Option String

/-- The params dict a `GetOperationsSummaryQuery` becomes. -/
def GetOperationsSummaryQuery.toParams (q : GetOperationsSummaryQuery) :
    List (String × QueryValue) :=
  ("accountId", QueryValue.str q.accountId) ::
    (optQuery "startDate" (q.startDate.map QueryValue.str)
      ++ optQuery "endDate" (q.endDate.map QueryValue.str)
      ++ optQuery "groupBy" (q.groupBy.map QueryValue.str))

/-- The `MakeFeeOperationRequest` TypedDict: base fields `status`,
`amount`, `cardId`, `accountId` plus `feeType`; optional `description`
and `metadata`. -/
structure MakeFeeOperationRequest where
  status : String
  amount : ℚ
  cardId : String
  accountId : String
  feeType : String
  description : Option String
  metadata : Option (List (String × Json))

/-- `json.dumps` of a `MakeFeeOperationRequest` dict. -/
def MakeFeeOperationRequest.toJson (r : MakeFeeOperationRequest) : Json :=
  Json.obj ([("status", Json.str r.status), ("amount", Json.num r.amount),
      ("cardId", Json.str r.cardId), ("accountId", Json.str r.accountId),
      ("feeType", Json.str r.feeType)]
    ++ optField "description" (r.description.map Json.str)
    ++ optField "metadata" (r.metadata.map Json.obj))

/-- The `MakeTopUpOperationRequest` TypedDict: base fields plus `source`
and `currency`; optional `description` and `metadata`. -/
structure MakeTopUpOperationRequest where
  status : String
  amount : ℚ
  cardId : String
  accountId : String
  source : String
  currency : String
  description : Option String
  metadata : Option (List (String × Json))

/-- `json.dumps` of a `MakeTopUpOperationRequest` dict. -/
def MakeTopUpOperationRequest.toJson (r : MakeTopUpOperationRequest) : Json :=
  Json.obj ([("status", Json.str r.status), ("amount", Json.num r.amount),
      ("cardId", Json.str r.cardId), ("accountId", Json.str r.accountId),
      ("source", Json.str r.source), ("currency", Json.str r.currency)]
    ++ optField "description" (r.description.map Json.str)
    ++ optField "metadata" (r.metadata.map Json.obj))

/-- The `MakeCashbackOperationRequest` TypedDict: base fields plus
`cashbackType`; optional `merchantId`, `description`, `metadata`. -/
structure MakeCashbackOperationRequest where
  status : String
  amount : ℚ
  cardId : String
  accountId : String
  cashbackType : String
  merchantId : Option String
  description : Option String
  metadata : Option (List (String × Json))

/-- `json.dumps` of a `MakeCashbackOperationRequest` dict. -/
def MakeCashbackOperationRequest.toJson (r : MakeCashbackOperationRequest) : Json :=
  Json.obj ([("status", Json.str r.status), ("amount", Json.num r.amount),
      ("cardId", Json.str r.cardId), ("accountId", Json.str r.accountId),
      ("cashbackType", Json.str r.cashbackType)]
    ++ optField "merchantId" (r.merchantId.map Json.str)
    ++ optField "description" (r.description.map Json.str)
    ++ optField "metadata" (r.metadata.map Json.obj))

/-- The `MakeTransferOperationRequest` TypedDict: base fields plus
`recipientAccountId` and `recipientName`; optional `description`,
`metadata`. -/
structure MakeTransferOperationRequest where
  status : String
  amount : ℚ
  cardId : String
  accountId : String
  recipientAccountId : String
  recipientName : String
  description : Option String
  metadata : Option (List (String × Json))

/-- `json.dumps` of a `MakeTransferOperationRequest` dict. -/
def MakeTransferOperationRequest.toJson (r : MakeTransferOperationRequest) : Json :=
  Json.obj ([("status", Json.str r.status), ("amount", Json.num r.amount),
      ("cardId", Json.str r.cardId), ("accountId", Json.str r.accountId),
      ("recipientAccountId", Json.str r.recipientAccountId),
      ("recipientName", Json.str r.recipientName)]
    ++ optField "description" (r.description.map Json.str)
    ++ optField "metadata" (r.metadata.map Json.obj))

/-- The `MakePurchaseOperationRequest` TypedDict: base fields plus
`merchantId`, `merchantName`, `category`; optional `location`,
`description`, `metadata`. -/
structure MakePurchaseOperationRequest where
  status : String
  amount : ℚ
  cardId : String
  accountId : String
  merchantId : String
  merchantName : String
  category : String
  location : Option String
  description : Option String
  metadata : Option (List (String × Json))

/-- `json.dumps` of a `MakePurchaseOperationRequest` dict. -/
def MakePurchaseOperationRequest.toJson (r : MakePurchaseOperationRequest) : Json :=
  Json.obj ([("status", Json.str r.status), ("amount", Json.num r.amount),
      ("cardId", Json.str r.cardId), ("accountId", Json.str r.accountId),
      ("merchantId", Json.str r.merchantId), ("merchantName", Json.str r.merchantName),
      ("category", Json.str r.category)]
    ++ optField "location" (r.location.map Json.str)
    ++ optField "description" (r.description.map Json.str)
    ++ optField "metadata" (r.metadata.map Json.obj))

/-- The `MakeBillPaymentOperationRequest` TypedDict: base fields plus
`billNumber`, `billType`, `providerName`; optional `description`,
`metadata`. -/
structure MakeBillPaymentOperationRequest where
  status : String
  amount : ℚ
  cardId : String
  accountId : String
  billNumber : String
  billType : String
  providerName : String
  description : Option String
  metadata : Option (List (String × Json))

/-- `json.dumps` of a `MakeBillPaymentOperationRequest` dict. -/
def MakeBillPaymentOperationRequest.toJson (r : MakeBillPaymentOperationRequest) : Json :=
  Json.obj ([("status", Json.str r.status), ("amount", Json.num r.amount),
      ("cardId", Json.str r.cardId), ("accountId", Json.str r.accountId),
      ("billNumber", Json.str r.billNumber), ("billType", Json.str r.billType),
      ("providerName", Json.str r.providerName)]
    ++ optField "description" (r.description.map Json.str)
    ++ optField "metadata" (r.metadata.map Json.obj))

/-- The `MakeCashWithdrawalOperationRequest` TypedDict: base fields plus
`currency`; optional `atmId`, `atmLocation`, `description`, `metadata`. -/
structure MakeCashWithdrawalOperationRequest where
  status : String
  amount : ℚ
  cardId : String
  accountId : String
  currency : String
  atmId : Option String
  atmLocation : Option String
  description : Option String
  metadata : Option (List (String × Json))

/-- `json.dumps` of a `MakeCashWithdrawalOperationRequest` dict. -/
def MakeCashWithdrawalOperationRequest.toJson (r : MakeCashWithdrawalOperationRequest) : Json :=
  Json.obj ([("status", Json.str r.status), ("amount", Json.num r.amount),
      ("cardId", Json.str r.cardId), ("accountId", Json.str r.accountId),
      ("currency", Json.str r.currency)]
    ++ optField "atmId" (r.atmId.map Json.str)
    ++ optField "atmLocation" (r.atmLocation.map Json.str)
    ++ optField "description" (r.description.map Json.str)
    ++ optField "metadata" (r.metadata.map Json.obj))

/-- The request `get_operation_api` hands to `httpx`: GET at the f-string
path `/api/v1/operations/` followed by the identifier, no params, no body. -/
def get_operation_request (c : HTTPClient) (operation_id : String) : Request :=
  { method := HttpMethod.GET, base_url := c.base_url, timeout := c.timeout,
    url := "/api/v1/operations/" ++ operation_id,
    params := [], body := none, headers := [("Accept", "application/json")] }

/-- `OperationsGatewayHTTPClient.get_operation_api`: issue the GET and
return the raw response. -/
def get_operation_api (c : HTTPClient) (t : Transport) (n : Nat)
    (operation_id : String) : ApiResult Response :=
  { value := t.respond n (get_operation_request c operation_id), client := c, calls := n + 1 }

/-- The request `get_operation_receipt_api` hands to `httpx`: GET at
`/api/v1/operations/operation-receipt/` followed by the identifier. -/
def get_operation_receipt_request (c : HTTPClient) (operation_id : String) : Request :=
  { method := HttpMethod.GET, base_url := c.base_url, timeout := c.timeout,
    url := "/api/v1/operations/operation-receipt/" ++ operation_id,
    params := [], body := none, headers := [("Accept", "application/json")] }

/-- `OperationsGatewayHTTPClient.get_operation_receipt_api`: issue the GET
and return the raw response. -/
def get_operation_receipt_api (c : HTTPClient) (t : Transport) (n : Nat)
    (operation_id : String) : ApiResult Response :=
  { value := t.respond n (get_operation_receipt_request c operation_id),
    client := c, calls := n + 1 }

/-- The request `get_operations_api` hands to `httpx`: GET
`/api/v1/operations` with the caller's params dict passed verbatim. -/
def get_operations_request (c : HTTPClient) (q : GetOperationsQuery) : Request :=
  { method := HttpMethod.GET, base_url := c.base_url, timeout := c.timeout,
    url := "/api/v1/operations",
    params := q.toParams, body := none, headers := [("Accept", "application/json")] }

/-- `OperationsGatewayHTTPClient.get_operations_api`: issue the GET and
return the raw response. -/
def get_operations_api (c : HTTPClient) (t : Transport) (n : Nat)
    (q : GetOperationsQuery) : ApiResult Response :=
  { value := t.respond n (get_operations_request c q), client := c, calls := n + 1 }

/-- The request `get_operations_summary_api` hands to `httpx`: GET
`/api/v1/operations/operations-summary` with the params dict verbatim. -/
def get_operations_summary_request (c : HTTPClient) (q : GetOperationsSummaryQuery) : Request :=
  { method := HttpMethod.GET, base_url := c.base_url, timeout := c.timeout,
    url := "/api/v1/operations/operations-summary",
    params := q.toParams, body := none, headers := [("Accept", "application/json")] }

/-- `OperationsGatewayHTTPClient.get_operations_summary_api`: issue the GET
and return the raw response. -/
def get_operations_summary_api (c : HTTPClient) (t : Transport) (n : Nat)
    (q : GetOperationsSummaryQuery) : ApiResult Response :=
  { value := t.respond n (get_operations_summary_request c q), client := c, calls := n + 1 }

/-- The request `make_fee_operation_api` hands to `httpx`: POST
`/api/v1/operations/make-fee-operation` with the contract as JSON body. -/
def make_fee_operation_request (c : HTTPClient) (r : MakeFeeOperationRequest) : Request :=
  { method := HttpMethod.POST, base_url := c.base_url, timeout := c.timeout,
    url := "/api/v1/operations/make-fee-operation",
    params := [], body := some r.toJson, headers := postHeaders }

/-- `OperationsGatewayHTTPClient.make_fee_operation_api`: issue the POST and
return the raw response. -/
def make_fee_operation_api (c : HTTPClient) (t : Transport) (n : Nat)
    (r : MakeFeeOperationRequest) : ApiResult Response :=
  { value := t.respond n (make_fee_operation_request c r), client := c, calls := n + 1 }

/-- The request `make_top_up_operation_api` hands to `httpx`: POST
`/api/v1/operations/make-top-up-operation` with the contract as body. -/
def make_top_up_operation_request (c : HTTPClient) (r : MakeTopUpOperationRequest) : Request :=
  { method := HttpMethod.POST, base_url := c.base_url, timeout := c.timeout,
    url := "/api/v1/operations/make-top-up-operation",
    params := [], body := some r.toJson, headers := postHeaders }

/-- `OperationsGatewayHTTPClient.make_top_up_operation_api`: issue the POST
and return the raw response. -/
def make_top_up_operation_api (c : HTTPClient) (t : Transport) (n : Nat)
    (r : MakeTopUpOperationRequest) : ApiResult Response :=
  { value := t.respond n (make_top_up_operation_request c r), client := c, calls := n + 1 }

/-- The request `make_cashback_operation_api` hands to `httpx`: POST
`/api/v1/operations/make-cashback-operation` with the contract as body. -/
def make_cashback_operation_request (c : HTTPClient) (r : MakeCashbackOperationRequest) : Request :=
  { method := HttpMethod.POST, base_url := c.base_url, timeout := c.timeout,
    url := "/api/v1/operations/make-cashback-operation",
    params := [], body := some r.toJson, headers := postHeaders }

/-- `OperationsGatewayHTTPClient.make_cashback_operation_api`: issue the
POST and return the raw response. -/
def make_cashback_operation_api (c : HTTPClient) (t : Transport) (n : Nat)
    (r : MakeCashbackOperationRequest) : ApiResult Response :=
  { value := t.respond n (make_cashback_operation_request c r), client := c, calls := n + 1 }

/-- The request `make_transfer_operation_api` hands to `httpx`: POST
`/api/v1/operations/make-transfer-operation` with the contract as body. -/
def make_transfer_operation_request (c : HTTPClient) (r : MakeTransferOperationRequest) : Request :=
  { method := HttpMethod.POST, base_url := c.base_url, timeout := c.timeout,
    url := "/api/v1/operations/make-transfer-operation",
    params := [], body := some r.toJson, headers := postHeaders }

/-- `OperationsGatewayHTTPClient.make_transfer_operation_api`: issue the
POST and return the raw response. -/
def make_transfer_operation_api (c : HTTPClient) (t : Transport) (n : Nat)
    (r : MakeTransferOperationRequest) : ApiResult Response :=
  { value := t.respond n (make_transfer_operation_request c r), client := c, calls := n + 1 }

/-- The request `make_purchase_operation_api` hands to `httpx`: POST
`/api/v1/operations/make-purchase-operation` with the contract as body. -/
def make_purchase_operation_request (c : HTTPClient) (r : MakePurchaseOperationRequest) : Request :=
  { method := HttpMethod.POST, base_url := c.base_url, timeout := c.timeout,
    url := "/api/v1/operations/make-purchase-operation",
    params := [], body := some r.toJson, headers := postHeaders }

/-- `OperationsGatewayHTTPClient.make_purchase_operation_api`: issue the
POST and return the raw response. -/
def make_purchase_operation_api (c : HTTPClient) (t : Transport) (n : Nat)
    (r : MakePurchaseOperationRequest) : ApiResult Response :=
  { value := t.respond n (make_purchase_operation_request c r), client := c, calls := n + 1 }

/-- The request `make_bill_payment_operation_api` hands to `httpx`: POST
`/api/v1/operations/make-bill-payment-operation` with the contract as body. -/
def make_bill_payment_operation_request (c : HTTPClient)
    (r : MakeBillPaymentOperationRequest) : Request :=
  { method := HttpMethod.POST, base_url := c.base_url, timeout := c.timeout,
    url := "/api/v1/operations/make-bill-payment-operation",
    params := [], body := some r.toJson, headers := postHeaders }

/-- `OperationsGatewayHTTPClient.make_bill_payment_operation_api`: issue the
POST and return the raw response. -/
def make_bill_payment_operation_api (c : HTTPClient) (t : Transport) (n : Nat)
    (r : MakeBillPaymentOperationRequest) : ApiResult Response :=
  { value := t.respond n (make_bill_payment_operation_request c r), client := c, calls := n + 1 }

/-- The request `make_cash_withdrawal_operation_api` hands to `httpx`: POST
`/api/v1/operations/make-cash-withdrawal-operation` with the contract as
body. -/
def make_cash_withdrawal_operation_request (c : HTTPClient)
    (r : MakeCashWithdrawalOperationRequest) : Request :=
  { method := HttpMethod.POST, base_url := c.base_url, timeout := c.timeout,
    url := "/api/v1/operations/make-cash-withdrawal-operation",
    params := [], body := some r.toJson, headers := postHeaders }

/-- `OperationsGatewayHTTPClient.make_cash_withdrawal_operation_api`: issue
the POST and return the raw response. -/
def make_cash_withdrawal_operation_api (c : HTTPClient) (t : Transport) (n : Nat)
    (r : MakeCashWithdrawalOperationRequest) : ApiResult Response :=
  { value := t.respond n (make_cash_withdrawal_operation_request c r),
    client := c, calls := n + 1 }

/-! ### Users and Accounts clients

The modules `clients/http/gateway/users` and `clients/http/gateway/accounts`
are imported by `src/api_client_get_documents.py` but their source files are
not present under `src/`; the definitions below are modelled from the spec
(section 4.2 endpoint surface and the workflow scripts that call them). -/

/-- Modelled from the spec: the `CreateUserRequestDict` contract of the
missing `clients/http/gateway/users` module, with the fields its caller
`src/api_client_get_documents.py` populates. -/
structure CreateUserRequest where
  email : String
  lastName : String
  firstName : String
  middleName : String
  phoneNumber : String

/-- Modelled from the spec: serialization of a `CreateUserRequest` dict. -/
def CreateUserRequest.toJson (r : CreateUserRequest) : Json :=
  Json.obj [("email", Json.str r.email), ("lastName", Json.str r.lastName),
    ("firstName", Json.str r.firstName), ("middleName", Json.str r.middleName),
    ("phoneNumber", Json.str r.phoneNumber)]

/-- Modelled from the spec: the request `create_user_api` of the missing
Users client issues — a JSON write (POST) to the users endpoint. -/
def create_user_request (c : HTTPClient) (r : CreateUserRequest) : Request :=
  { method := HttpMethod.POST, base_url := c.base_url, timeout := c.timeout,
    url := "/api/v1/users",
    params := [], body := some r.toJson, headers := postHeaders }

/-- Modelled from the spec: `UsersGatewayHTTPClient.create_user_api` — a
low-level method issuing one POST and returning the raw response. -/
def create_user_api (c : HTTPClient) (t : Transport) (n : Nat)
    (r : CreateUserRequest) : ApiResult Response :=
  { value := t.respond n (create_user_request c r), client := c, calls := n + 1 }

/-- Modelled from the spec: the `OpenCreditCardAccountRequestDict` contract
of the missing `clients/http/gateway/accounts` module, with the fields its
caller `src/api_client_get_documents.py` populates. -/
structure OpenCreditCardAccountRequest where
  userId : String
  currency : String
  creditLimit : ℚ
  interestRate : ℚ
  cardType : String

/-- Modelled from the spec: serialization of an
`OpenCreditCardAccountRequest` dict. -/
def OpenCreditCardAccountRequest.toJson (r : OpenCreditCardAccountRequest) : Json :=
  Json.obj [("userId", Json.str r.userId), ("currency", Json.str r.currency),
    ("creditLimit", Json.num r.creditLimit), ("interestRate", Json.num r.interestRate),
    ("cardType", Json.str r.cardType)]

/-- Modelled from the spec: the request `open_credit_card_account_api` of
the missing Accounts client issues. -/
def open_credit_card_account_request (c : HTTPClient)
    (r : OpenCreditCardAccountRequest) : Request :=
  { method := HttpMethod.POST, base_url := c.base_url, timeout := c.timeout,
    url := "/api/v1/accounts/open-credit-card-account",
    params := [], body := some r.toJson, headers := postHeaders }

/-- Modelled from the spec:
`AccountsGatewayHTTPClient.open_credit_card_account_api` — a low-level
method issuing one POST and returning the raw response. -/
def open_credit_card_account_api (c : HTTPClient) (t : Transport) (n : Nat)
    (r : OpenCreditCardAccountRequest) : ApiResult Response :=
  { value := t.respond n (open_credit_card_account_request c r), client := c, calls := n + 1 }

/-- Modelled from the spec: the `OpenDepositAccountRequest` contract of the
missing Accounts client, with the fields the deposit workflow script
populates. -/
structure OpenDepositAccountRequest where
  userId : String
  currency : String
  initialDeposit : ℚ

/-- Modelled from the spec: serialization of an `OpenDepositAccountRequest`
dict. -/
def OpenDepositAccountRequest.toJson (r : OpenDepositAccountRequest) : Json :=
  Json.obj [("userId", Json.str r.userId), ("currency", Json.str r.currency),
    ("initialDeposit", Json.num r.initialDeposit)]

/-- Modelled from the spec: the request `open_deposit_account_api` of the
missing Accounts client issues. -/
def open_deposit_account_request (c : HTTPClient) (r : OpenDepositAccountRequest) : Request :=
  { method := HttpMethod.POST, base_url := c.base_url, timeout := c.timeout,
    url := "/api/v1/accounts/open-deposit-account",
    params := [], body := some r.toJson, headers := postHeaders }

/-- Modelled from the spec:
`AccountsGatewayHTTPClient.open_deposit_account_api` — a low-level method
issuing one POST and returning the raw response. -/
def open_deposit_account_api (c : HTTPClient) (t : Transport) (n : Nat)
    (r : OpenDepositAccountRequest) : ApiResult Response :=
  { value := t.respond n (open_deposit_account_request c r), client := c, calls := n + 1 }

/-! ### Declared envelope shapes of the Documents high-level methods

These two predicates transcribe the spec's words (the `TypedDict` return
annotations `GetTariffDocumentResponseDict` / `GetContractDocumentResponseDict`)
rather than any runtime check in the source — the source performs none.
They exist to compare the annotated shape with what the code returns. -/

/-- Conformance to the `DocumentDict` shape: an object with exactly the
string fields `url` and `document`. -/
def conformsToDocumentDict : Json → Bool
  | Json.obj [("url", Json.str _), ("document", Json.str _)] => true
  | _ => false

/-- Conformance to the `GetTariffDocumentResponseDict` shape: an object
with exactly a `tariff` field holding a `DocumentDict`. -/
def conformsToGetTariffDocumentResponseDict : Json → Bool
  | Json.obj [("tariff", d)] => conformsToDocumentDict d
  | _ => false

/-- Conformance to the `GetContractDocumentResponseDict` shape: an object
with exactly a `contract` field holding a `DocumentDict`. -/
def conformsToGetContractDocumentResponseDict : Json → Bool
  | Json.obj [("contract", d)] => conformsToDocumentDict d
  | _ => false

/-! ### Helper lemmas -/

/-- A key appears among an optional body field's serialized entries iff it
is that field's key and the field is populated. -/
theorem exists_mem_optField {k0 k : String} {o : Option Json} :
    (∃ v, (k, v) ∈ optField k0 o) ↔ k = k0 ∧ o.isSome = true := by
  cases o <;> simp [optField]

/-- An entry appears in an optional query field's contribution iff the
field is populated with exactly that entry. -/
theorem mem_optQuery {k0 k : String} {o : Option QueryValue} {v : QueryValue} :
    (k, v) ∈ optQuery k0 o ↔ k = k0 ∧ o = some v := by
  cases o <;> simp [optQuery, eq_comm]

/-- Mapping a function across an optional value preserves whether it is
populated. -/
theorem isSome_map {α β : Type} (f : α → β) (o : Option α) :
    (o.map f).isSome = o.isSome := by
  cases o <;> rfl

/-- The head surviving `dropWhile` refutes the predicate. -/
theorem head_dropWhile {α : Type} (p : α → Bool) :
    ∀ (l : List α) (x : α), (l.dropWhile p).head? = some x → p x = false := by
  intro l
  induction l with
  | nil => intro x h; simp [List.dropWhile] at h
  | cons a l ih =>
      intro x h
      by_cases hp : p a = true
      · exact ih x (by simpa [List.dropWhile, hp] using h)
      · have hpa : p a = false := by simpa using hp
        rw [List.dropWhile_cons_of_neg (by simp [hpa])] at h
        simp at h
        rw [← h]
        exact hpa

/-! ### Claim theorems -/

/-- C1: for both high-level document retrieval methods and every account
identifier, a 2xx underlying response with a well-formed (JSON-decodable)
body makes the method return exactly the decoded body, and a non-2xx
response makes it return a `StatusError` carrying the original status code
— the error reaches the caller, never swallowed. -/
theorem claim_C1_high_level_document_methods (c : HTTPClient) (t : Transport) (n : Nat)
    (account_id : String) :
    (∀ j : Json, (get_tariff_document_api c t n account_id).value.is_success = true →
        (get_tariff_document_api c t n account_id).value.body = some j →
        (get_tariff_document c t n account_id).value = Except.ok j) ∧
    ((get_tariff_document_api c t n account_id).value.is_success = false →
        (get_tariff_document c t n account_id).value =
          Except.error (ClientError.statusError
            (get_tariff_document_api c t n account_id).value.status
            (get_tariff_document_api c t n account_id).value.body)) ∧
    (∀ j : Json, (get_contract_document_api c t n account_id).value.is_success = true →
        (get_contract_document_api c t n account_id).value.body = some j →
        (get_contract_document c t n account_id).value = Except.ok j) ∧
    ((get_contract_document_api c t n account_id).value.is_success = false →
        (get_contract_document c t n account_id).value =
          Except.error (ClientError.statusError
            (get_contract_document_api c t n account_id).value.status
            (get_contract_document_api c t n account_id).value.body)) := by
  refine ⟨fun j hs hb => ?_, fun hs => ?_, fun j hs hb => ?_, fun hs => ?_⟩ <;>
    simp only [get_tariff_document_api, get_tariff_document,
      get_contract_document_api, get_contract_document] at hs ⊢ <;>
    first
      | (simp only [get_tariff_document_api, get_contract_document_api] at hb
         simp [Response.raise_for_status, hs, Response.json, hb])
      | simp [Response.raise_for_status, hs]

/-- C1 witness: with a transport answering 200 and a JSON body the tariff
method returns that body; with a transport answering 404 it returns a
`StatusError` carrying 404. -/
theorem claim_C1_high_level_document_methods_witness :
    (get_tariff_document (HTTPClient.init "http://b" none)
        ⟨fun _ _ => ⟨200, some (Json.str "doc")⟩⟩ 0 "A1").value = Except.ok (Json.str "doc") ∧
    (get_tariff_document (HTTPClient.init "http://b" none)
        ⟨fun _ _ => ⟨404, none⟩⟩ 0 "A1").value =
      Except.error (ClientError.statusError 404 none) :=
  ⟨(claim_C1_high_level_document_methods (HTTPClient.init "http://b" none)
      ⟨fun _ _ => ⟨200, some (Json.str "doc")⟩⟩ 0 "A1").1 (Json.str "doc")
      (by decide) rfl,
   (claim_C1_high_level_document_methods (HTTPClient.init "http://b" none)
      ⟨fun _ _ => ⟨404, none⟩⟩ 0 "A1").2.1 (by decide)⟩

/-- C2: every low-level `*_api` method of the Cards, Documents and
Operations clients returns the transport's response unconditionally and
untouched — its result is literally the oracle's answer to the one request
it issues, so no status is inspected and no `StatusError`/`DecodeError`
can be raised; in particular a 404 (e.g. for a nonexistent operation id in
`get_operation_receipt_api`) comes back exactly as the server sent it. -/
theorem claim_C2_low_level_methods_return_raw_response
    (c : HTTPClient) (t : Transport) (n : Nat) :
    (∀ a, (issue_virtual_card_api c t n a).value = t.respond n (issue_virtual_card_request c a)) ∧
    (∀ a, (issue_physical_card_api c t n a).value = t.respond n (issue_physical_card_request c a)) ∧
    (∀ a, (get_tariff_document_api c t n a).value = t.respond n (get_tariff_document_request c a)) ∧
    (∀ a, (get_contract_document_api c t n a).value = t.respond n (get_contract_document_request c a)) ∧
    (∀ a, (get_operation_api c t n a).value = t.respond n (get_operation_request c a)) ∧
    (∀ a, (get_operation_receipt_api c t n a).value = t.respond n (get_operation_receipt_request c a)) ∧
    (∀ a, (get_operations_api c t n a).value = t.respond n (get_operations_request c a)) ∧
    (∀ a, (get_operations_summary_api c t n a).value = t.respond n (get_operations_summary_request c a)) ∧
    (∀ a, (make_fee_operation_api c t n a).value = t.respond n (make_fee_operation_request c a)) ∧
    (∀ a, (make_top_up_operation_api c t n a).value = t.respond n (make_top_up_operation_request c a)) ∧
    (∀ a, (make_cashback_operation_api c t n a).value = t.respond n (make_cashback_operation_request c a)) ∧
    (∀ a, (make_transfer_operation_api c t n a).value = t.respond n (make_transfer_operation_request c a)) ∧
    (∀ a, (make_purchase_operation_api c t n a).value = t.respond n (make_purchase_operation_request c a)) ∧
    (∀ a, (make_bill_payment_operation_api c t n a).value = t.respond n (make_bill_payment_operation_request c a)) ∧
    (∀ a, (make_cash_withdrawal_operation_api c t n a).value = t.respond n (make_cash_withdrawal_operation_request c a)) :=
  ⟨fun _ => rfl, fun _ => rfl, fun _ => rfl, fun _ => rfl, fun _ => rfl,
   fun _ => rfl, fun _ => rfl, fun _ => rfl, fun _ => rfl, fun _ => rfl,
   fun _ => rfl, fun _ => rfl, fun _ => rfl, fun _ => rfl, fun _ => rfl⟩

/-- C7: the two path-parameterized endpoints build their URL by literal
substitution of the operation identifier into the template — the layer
inserts the identifier verbatim, applying no escaping of its own. -/
theorem claim_C7_path_substitution (c : HTTPClient) (operation_id : String) :
    (get_operation_request c operation_id).url =
      "/api/v1/operations/" ++ operation_id ∧
    (get_operation_receipt_request c operation_id).url =
      "/api/v1/operations/operation-receipt/" ++ operation_id :=
  ⟨rfl, rfl⟩

/-- C8: every write (POST) endpoint of the layer sends both
`Content-Type: application/json` and `Accept: application/json`, and every
read (GET) endpoint sends `Accept: application/json` (the Users/Accounts
writes are the spec-modelled clients). -/
theorem claim_C8_json_headers (c : HTTPClient) :
    (∀ a, (get_tariff_document_request c a).method = HttpMethod.GET ∧
      (get_tariff_document_request c a).headers = [("Accept", "application/json")]) ∧
    (∀ a, (get_contract_document_request c a).method = HttpMethod.GET ∧
      (get_contract_document_request c a).headers = [("Accept", "application/json")]) ∧
    (∀ a, (get_operation_request c a).method = HttpMethod.GET ∧
      (get_operation_request c a).headers = [("Accept", "application/json")]) ∧
    (∀ a, (get_operation_receipt_request c a).method = HttpMethod.GET ∧
      (get_operation_receipt_request c a).headers = [("Accept", "application/json")]) ∧
    (∀ a, (get_operations_request c a).method = HttpMethod.GET ∧
      (get_operations_request c a).headers = [("Accept", "application/json")]) ∧
    (∀ a, (get_operations_summary_request c a).method = HttpMethod.GET ∧
      (get_operations_summary_request c a).headers = [("Accept", "application/json")]) ∧
    (∀ a, (issue_virtual_card_request c a).method = HttpMethod.POST ∧
      (issue_virtual_card_request c a).headers =
        [("Content-Type", "application/json"), ("Accept", "application/json")]) ∧
    (∀ a, (issue_physical_card_request c a).method = HttpMethod.POST ∧
      (issue_physical_card_request c a).headers =
        [("Content-Type", "application/json"), ("Accept", "application/json")]) ∧
    (∀ a, (make_fee_operation_request c a).method = HttpMethod.POST ∧
      (make_fee_operation_request c a).headers =
        [("Content-Type", "application/json"), ("Accept", "application/json")]) ∧
    (∀ a, (make_top_up_operation_request c a).method = HttpMethod.POST ∧
      (make_top_up_operation_request c a).headers =
        [("Content-Type", "application/json"), ("Accept", "application/json")]) ∧
    (∀ a, (make_cashback_operation_request c a).method = HttpMethod.POST ∧
      (make_cashback_operation_request c a).headers =
        [("Content-Type", "application/json"), ("Accept", "application/json")]) ∧
    (∀ a, (make_transfer_operation_request c a).method = HttpMethod.POST ∧
      (make_transfer_operation_request c a).headers =
        [("Content-Type", "application/json"), ("Accept", "application/json")]) ∧
    (∀ a, (make_purchase_operation_request c a).method = HttpMethod.POST ∧
      (make_purchase_operation_request c a).headers =
        [("Content-Type", "application/json"), ("Accept", "application/json")]) ∧
    (∀ a, (make_bill_payment_operation_request c a).method = HttpMethod.POST ∧
      (make_bill_payment_operation_request c a).headers =
        [("Content-Type", "application/json"), ("Accept", "application/json")]) ∧
    (∀ a, (make_cash_withdrawal_operation_request c a).method = HttpMethod.POST ∧
      (make_cash_withdrawal_operation_request c a).headers =
        [("Content-Type", "application/json"), ("Accept", "application/json")]) ∧
    (∀ a, (create_user_request c a).method = HttpMethod.POST ∧
      (create_user_request c a).headers =
        [("Content-Type", "application/json"), ("Accept", "application/json")]) ∧
    (∀ a, (open_credit_card_account_request c a).method = HttpMethod.POST ∧
      (open_credit_card_account_request c a).headers =
        [("Content-Type", "application/json"), ("Accept", "application/json")]) ∧
    (∀ a, (open_deposit_account_request c a).method = HttpMethod.POST ∧
      (open_deposit_account_request c a).headers =
        [("Content-Type", "application/json"), ("Accept", "application/json")]) := by
  refine ⟨?_, ?_, ?_, ?_, ?_, ?_, ?_, ?_, ?_, ?_, ?_, ?_, ?_, ?_, ?_, ?_, ?_, ?_⟩ <;>
    exact fun _ => ⟨rfl, rfl⟩

/-- C3: for every write endpoint (both card issue methods and the seven
operation-creation methods), the JSON body sent is the serialization of the
supplied Request Contract, and its key set is exactly the endpoint's
required fields plus the populated optional fields — an unpopulated
optional field contributes no key. -/
theorem claim_C3_write_bodies_exact_fields (c : HTTPClient) :
    (∀ r : VirtualCardRequest, (issue_virtual_card_request c r).body = some r.toJson ∧
      (∀ k, k ∈ r.toJson.objKeys ↔
        k = "user_id" ∨ k = "account_id" ∨ k = "currency" ∨
        (k = "card_type" ∧ r.card_type.isSome = true) ∨
        (k = "metadata" ∧ r.metadata.isSome = true))) ∧
    (∀ r : PhysicalCardRequest, (issue_physical_card_request c r).body = some r.toJson ∧
      (∀ k, k ∈ r.toJson.objKeys ↔
        k = "user_id" ∨ k = "account_id" ∨ k = "currency" ∨
        k = "delivery_address" ∨ k = "card_holder_name" ∨
        (k = "card_type" ∧ r.card_type.isSome = true) ∨
        (k = "metadata" ∧ r.metadata.isSome = true))) ∧
    (∀ r : MakeFeeOperationRequest, (make_fee_operation_request c r).body = some r.toJson ∧
      (∀ k, k ∈ r.toJson.objKeys ↔
        k = "status" ∨ k = "amount" ∨ k = "cardId" ∨ k = "accountId" ∨ k = "feeType" ∨
        (k = "description" ∧ r.description.isSome = true) ∨
        (k = "metadata" ∧ r.metadata.isSome = true))) ∧
    (∀ r : MakeTopUpOperationRequest, (make_top_up_operation_request c r).body = some r.toJson ∧
      (∀ k, k ∈ r.toJson.objKeys ↔
        k = "status" ∨ k = "amount" ∨ k = "cardId" ∨ k = "accountId" ∨
        k = "source" ∨ k = "currency" ∨
        (k = "description" ∧ r.description.isSome = true) ∨
        (k = "metadata" ∧ r.metadata.isSome = true))) ∧
    (∀ r : MakeCashbackOperationRequest, (make_cashback_operation_request c r).body = some r.toJson ∧
      (∀ k, k ∈ r.toJson.objKeys ↔
        k = "status" ∨ k = "amount" ∨ k = "cardId" ∨ k = "accountId" ∨ k = "cashbackType" ∨
        (k = "merchantId" ∧ r.merchantId.isSome = true) ∨
        (k = "description" ∧ r.description.isSome = true) ∨
        (k = "metadata" ∧ r.metadata.isSome = true))) ∧
    (∀ r : MakeTransferOperationRequest, (make_transfer_operation_request c r).body = some r.toJson ∧
      (∀ k, k ∈ r.toJson.objKeys ↔
        k = "status" ∨ k = "amount" ∨ k = "cardId" ∨ k = "accountId" ∨
        k = "recipientAccountId" ∨ k = "recipientName" ∨
        (k = "description" ∧ r.description.isSome = true) ∨
        (k = "metadata" ∧ r.metadata.isSome = true))) ∧
    (∀ r : MakePurchaseOperationRequest, (make_purchase_operation_request c r).body = some r.toJson ∧
      (∀ k, k ∈ r.toJson.objKeys ↔
        k = "status" ∨ k = "amount" ∨ k = "cardId" ∨ k = "accountId" ∨
        k = "merchantId" ∨ k = "merchantName" ∨ k = "category" ∨
        (k = "location" ∧ r.location.isSome = true) ∨
        (k = "description" ∧ r.description.isSome = true) ∨
        (k = "metadata" ∧ r.metadata.isSome = true))) ∧
    (∀ r : MakeBillPaymentOperationRequest, (make_bill_payment_operation_request c r).body = some r.toJson ∧
      (∀ k, k ∈ r.toJson.objKeys ↔
        k = "status" ∨ k = "amount" ∨ k = "cardId" ∨ k = "accountId" ∨
        k = "billNumber" ∨ k = "billType" ∨ k = "providerName" ∨
        (k = "description" ∧ r.description.isSome = true) ∨
        (k = "metadata" ∧ r.metadata.isSome = true))) ∧
    (∀ r : MakeCashWithdrawalOperationRequest, (make_cash_withdrawal_operation_request c r).body = some r.toJson ∧
      (∀ k, k ∈ r.toJson.objKeys ↔
        k = "status" ∨ k = "amount" ∨ k = "cardId" ∨ k = "accountId" ∨ k = "currency" ∨
        (k = "atmId" ∧ r.atmId.isSome = true) ∨
        (k = "atmLocation" ∧ r.atmLocation.isSome = true) ∨
        (k = "description" ∧ r.description.isSome = true) ∨
        (k = "metadata" ∧ r.metadata.isSome = true))) := by
  refine ⟨?_, ?_, ?_, ?_, ?_, ?_, ?_, ?_, ?_⟩ <;>
    refine fun r => ⟨rfl, fun k => ?_⟩ <;>
    simp [VirtualCardRequest.toJson, PhysicalCardRequest.toJson,
      MakeFeeOperationRequest.toJson, MakeTopUpOperationRequest.toJson,
      MakeCashbackOperationRequest.toJson, MakeTransferOperationRequest.toJson,
      MakePurchaseOperationRequest.toJson, MakeBillPaymentOperationRequest.toJson,
      MakeCashWithdrawalOperationRequest.toJson,
      Json.objKeys, exists_mem_optField, isSome_map]

/-- C4 counterexample: a 2xx response whose body is valid JSON of the wrong
shape (the empty object) makes `get_tariff_document` return normally with a
value that does not conform to `GetTariffDocumentResponseDict` — the method
validates nothing beyond JSON decoding, refuting the claim that a normal
return always conforms to the declared envelope shape. -/
theorem claim_C4_counterexample :
    (get_tariff_document (HTTPClient.init "http://b" none)
        ⟨fun _ _ => ⟨200, some (Json.obj [])⟩⟩ 0 "A1").value = Except.ok (Json.obj []) ∧
    conformsToGetTariffDocumentResponseDict (Json.obj []) = false :=
  ⟨rfl, rfl⟩

/-- C4 amended: for both high-level document methods, a 2xx response whose
body is not valid JSON raises a `DecodeError`; a 2xx body that is valid
JSON is returned as-is, with no validation that it conforms to the declared
envelope shape. -/
theorem claim_C4_amended_decode_only (c : HTTPClient) (t : Transport) (n : Nat)
    (account_id : String) :
    ((get_tariff_document_api c t n account_id).value.is_success = true →
      (get_tariff_document_api c t n account_id).value.body = none →
      (get_tariff_document c t n account_id).value = Except.error ClientError.decodeError) ∧
    (∀ j : Json, (get_tariff_document_api c t n account_id).value.is_success = true →
      (get_tariff_document_api c t n account_id).value.body = some j →
      (get_tariff_document c t n account_id).value = Except.ok j) ∧
    ((get_contract_document_api c t n account_id).value.is_success = true →
      (get_contract_document_api c t n account_id).value.body = none →
      (get_contract_document c t n account_id).value = Except.error ClientError.decodeError) ∧
    (∀ j : Json, (get_contract_document_api c t n account_id).value.is_success = true →
      (get_contract_document_api c t n account_id).value.body = some j →
      (get_contract_document c t n account_id).value = Except.ok j) := by
  refine ⟨fun hs hb => ?_, fun j hs hb => ?_, fun hs hb => ?_, fun j hs hb => ?_⟩ <;>
    simp only [get_tariff_document_api, get_tariff_document,
      get_contract_document_api, get_contract_document] at hs hb ⊢ <;>
    simp [Response.raise_for_status, hs, Response.json, hb]

/-- C4 amended witness: a 200 response with an undecodable body yields a
`DecodeError` from `get_tariff_document`; a 200 response with a decodable
body is handed back as-is. -/
theorem claim_C4_amended_decode_only_witness :
    (get_tariff_document (HTTPClient.init "http://b" none)
        ⟨fun _ _ => ⟨200, none⟩⟩ 0 "A1").value = Except.error ClientError.decodeError ∧
    (get_contract_document (HTTPClient.init "http://b" none)
        ⟨fun _ _ => ⟨204, some Json.null⟩⟩ 0 "A1").value = Except.ok Json.null :=
  ⟨(claim_C4_amended_decode_only (HTTPClient.init "http://b" none)
      ⟨fun _ _ => ⟨200, none⟩⟩ 0 "A1").1 (by decide) rfl,
   (claim_C4_amended_decode_only (HTTPClient.init "http://b" none)
      ⟨fun _ _ => ⟨204, some Json.null⟩⟩ 0 "A1").2.2.2 Json.null (by decide) rfl⟩

/-- C5: the read-with-filter operations pass the caller's params dict to
the wire verbatim — the request carries exactly the dict's entries, an
entry is present iff the caller supplied that field (with exactly the
supplied value), and an absent optional field contributes nothing (no null
and no empty value). -/
theorem claim_C5_query_params_verbatim (c : HTTPClient) (q : GetOperationsQuery)
    (qs : GetOperationsSummaryQuery) :
    (get_operations_request c q).params = q.toParams ∧
    (∀ k v, (k, v) ∈ q.toParams ↔
      (k = "accountId" ∧ v = QueryValue.str q.accountId) ∨
      (k = "limit" ∧ ∃ i, q.limit = some i ∧ QueryValue.int i = v) ∨
      (k = "offset" ∧ ∃ i, q.offset = some i ∧ QueryValue.int i = v) ∨
      (k = "startDate" ∧ ∃ s, q.startDate = some s ∧ QueryValue.str s = v) ∨
      (k = "endDate" ∧ ∃ s, q.endDate = some s ∧ QueryValue.str s = v) ∨
      (k = "operationType" ∧ ∃ s, q.operationType = some s ∧ QueryValue.str s = v)) ∧
    (get_operations_summary_request c qs).params = qs.toParams ∧
    (∀ k v, (k, v) ∈ qs.toParams ↔
      (k = "accountId" ∧ v = QueryValue.str qs.accountId) ∨
      (k = "startDate" ∧ ∃ s, qs.startDate = some s ∧ QueryValue.str s = v) ∨
      (k = "endDate" ∧ ∃ s, qs.endDate = some s ∧ QueryValue.str s = v) ∨
      (k = "groupBy" ∧ ∃ s, qs.groupBy = some s ∧ QueryValue.str s = v)) := by
  refine ⟨rfl, fun k v => ?_, rfl, fun k v => ?_⟩
  · simp [GetOperationsQuery.toParams, mem_optQuery, Option.map_eq_some']
  · simp [GetOperationsSummaryQuery.toParams, mem_optQuery, Option.map_eq_some']

/-- C6: the client layer exposes a Users client with a create-user
operation and an Accounts client with open-credit-card-account and
open-deposit-account operations (both modelled from the spec, their modules
being absent from src/), alongside the Cards, Documents and Operations
clients — each operation issuing exactly one request to its endpoint. -/
theorem claim_C6_users_accounts_clients (c : HTTPClient) (t : Transport) (n : Nat) :
    (∀ r, create_user_api c t n r =
      ⟨t.respond n (create_user_request c r), c, n + 1⟩) ∧
    (∀ r, open_credit_card_account_api c t n r =
      ⟨t.respond n (open_credit_card_account_request c r), c, n + 1⟩) ∧
    (∀ r, open_deposit_account_api c t n r =
      ⟨t.respond n (open_deposit_account_request c r), c, n + 1⟩) ∧
    (∀ r, issue_virtual_card_api c t n r =
      ⟨t.respond n (issue_virtual_card_request c r), c, n + 1⟩) ∧
    (∀ a, get_tariff_document_api c t n a =
      ⟨t.respond n (get_tariff_document_request c a), c, n + 1⟩) ∧
    (∀ a, get_operation_api c t n a =
      ⟨t.respond n (get_operation_request c a), c, n + 1⟩) :=
  ⟨fun _ => rfl, fun _ => rfl, fun _ => rfl, fun _ => rfl, fun _ => rfl, fun _ => rfl⟩

/-- C9: the Client Handle consists of nothing but its base URL and timeout;
no client method changes the handle it was given; and reissuing the same
GET with identical parameters sends the identical request a second time,
taking the answer from the next slot of the transport oracle — nothing is
deduplicated, cached or memoized. -/
theorem claim_C9_stateless_handle_no_caching :
    (∀ c : HTTPClient, c = ⟨c.base_url, c.timeout⟩) ∧
    (∀ c t n a, (get_tariff_document_api c t n a).client = c) ∧
    (∀ c t n a, (get_contract_document_api c t n a).client = c) ∧
    (∀ c t n a, (get_operation_api c t n a).client = c) ∧
    (∀ c t n a, (get_operation_receipt_api c t n a).client = c) ∧
    (∀ c t n q, (get_operations_api c t n q).client = c) ∧
    (∀ c t n q, (get_operations_summary_api c t n q).client = c) ∧
    (∀ c t n r, (issue_virtual_card_api c t n r).client = c) ∧
    (∀ c t n r, (issue_physical_card_api c t n r).client = c) ∧
    (∀ c t n r, (make_fee_operation_api c t n r).client = c) ∧
    (∀ c t n r, (make_top_up_operation_api c t n r).client = c) ∧
    (∀ c t n r, (make_cashback_operation_api c t n r).client = c) ∧
    (∀ c t n r, (make_transfer_operation_api c t n r).client = c) ∧
    (∀ c t n r, (make_purchase_operation_api c t n r).client = c) ∧
    (∀ c t n r, (make_bill_payment_operation_api c t n r).client = c) ∧
    (∀ c t n r, (make_cash_withdrawal_operation_api c t n r).client = c) ∧
    (∀ c t n a, (get_tariff_document c t n a).client = c) ∧
    (∀ c t n a, (get_contract_document c t n a).client = c) ∧
    (∀ (c : HTTPClient) (t : Transport) (n : Nat) (q : GetOperationsQuery),
      (get_operations_api c t n q).value = t.respond n (get_operations_request c q) ∧
      (get_operations_api c t n q).calls = n + 1 ∧
      (get_operations_api (get_operations_api c t n q).client t
          (get_operations_api c t n q).calls q).value =
        t.respond (n + 1) (get_operations_request c q)) := by
  refine ⟨fun _ => rfl,
    fun _ _ _ _ => rfl, fun _ _ _ _ => rfl, fun _ _ _ _ => rfl, fun _ _ _ _ => rfl,
    fun _ _ _ _ => rfl, fun _ _ _ _ => rfl, fun _ _ _ _ => rfl, fun _ _ _ _ => rfl,
    fun _ _ _ _ => rfl, fun _ _ _ _ => rfl, fun _ _ _ _ => rfl, fun _ _ _ _ => rfl,
    fun _ _ _ _ => rfl, fun _ _ _ _ => rfl, fun _ _ _ _ => rfl,
    ?_, ?_, fun _ _ _ _ => ⟨rfl, rfl, rfl⟩⟩
  · intro c t n a
    simp only [get_tariff_document, get_tariff_document_api]
    cases (t.respond n (get_tariff_document_request c a)).raise_for_status <;> rfl
  · intro c t n a
    simp only [get_contract_document, get_contract_document_api]
    cases (t.respond n (get_contract_document_request c a)).raise_for_status <;> rfl

/-- C10: the base constructor stores the base URL with every trailing slash
stripped (so it never ends in a slash, and an all-slash URL becomes empty),
defaults the timeout to 10.0 seconds when none is supplied, and the three
subclass constructors reproduce exactly the base constructor's result. -/
theorem claim_C10_constructor_normalization :
    (∀ (s : String) (t : Option ℚ),
      (HTTPClient.init s t).base_url.data.getLast? ≠ some '/') ∧
    (∀ (s : String) (t : Option ℚ), (∀ ch ∈ s.data, ch = '/') →
      (HTTPClient.init s t).base_url = "") ∧
    (∀ s : String, (HTTPClient.init s none).timeout = 10) ∧
    (∀ (s : String) (t : Option ℚ),
      DocumentsGatewayHTTPClient.init s t = HTTPClient.init s t) ∧
    (∀ (s : String) (t : Option ℚ),
      CardsGatewayHTTPClient.init s t = HTTPClient.init s t) ∧
    (∀ (s : String) (t : Option ℚ),
      OperationsGatewayHTTPClient.init s t = HTTPClient.init s t) := by
  refine ⟨?_, ?_, fun _ => rfl, ?_, ?_, ?_⟩
  · intro s t h
    simp only [HTTPClient.init, pyRstrip] at h
    rw [List.getLast?_reverse] at h
    have hp := head_dropWhile (fun ch => ch = '/') (s.data.reverse) '/' h
    simp at hp
  · intro s t h
    simp only [HTTPClient.init, pyRstrip]
    have hnil : s.data.reverse.dropWhile (fun ch => ch = '/') = [] := by
      rw [List.dropWhile_eq_nil_iff]
      intro x hx
      simp [h x (List.mem_reverse.mp hx)]
    rw [hnil]
    rfl
  · intro s t; cases t <;> rfl
  · intro s t; cases t <;> rfl
  · intro s t; cases t <;> rfl

/-- C10 witness: a handle built from a URL with trailing slashes has none
stored, an all-slash URL is stored empty, and the default timeout is 10. -/
theorem claim_C10_constructor_normalization_witness :
    (HTTPClient.init "http://x//" none).base_url.data.getLast? ≠ some '/' ∧
    (HTTPClient.init ⟨['/', '/', '/']⟩ none).base_url = "" ∧
    (HTTPClient.init "http://x" none).timeout = 10 :=
  ⟨claim_C10_constructor_normalization.1 "http://x//" none,
   claim_C10_constructor_normalization.2.1 ⟨['/', '/', '/']⟩ none (by decide),
   claim_C10_constructor_normalization.2.2.1 "http://x"⟩
